import Mathlib

/-!
Verification development for the "dying ReLU" notebook
(`inspect_const_weights`).  The reproducible core of the notebook is a
hand-rolled forward-pass evaluator `compute_activations` (with a `relu`
helper that clamps an array in place) and a data-simulation cell that
draws uniform samples with numpy's globally seeded generator and splits
them 80/20 with sklearn's `train_test_split`.

Numbers are modelled as exact rationals (the notebook uses IEEE doubles;
every identity claimed of it is algebraic, so the exact-arithmetic model
is the claim "up to floating-point tolerance").  Numpy arrays of shape
(1, n) or (n,) are modelled as `List ℚ`; numpy's broadcasting of a
trailing axis and its refusal to add incompatible lengths are modelled
explicitly, as is the `AssertionError` raised by the evaluator's
`assert activations in ['relu', 'linear']`.
-/

/-- Errors `compute_activations` can raise: the explicit `assert` on the
activation policy, and numpy's `ValueError` on non-broadcastable shapes. -/
inductive EvalError where
  | assertError : EvalError
  | shapeError : EvalError
deriving DecidableEq, Repr

/-- The weight bundle `[W1, b1, W2, b2]` handed to `compute_activations`
(`weights[0] .. weights[3]` in the source).  Shapes are not fixed by the
type: the source takes arbitrary numpy arrays, so each entry is a list. -/
structure Weights where
  W1 : List ℚ
  b1 : List ℚ
  W2 : List ℚ
  b2 : List ℚ
deriving DecidableEq, Repr

/-- Source `relu`: `x[x < 0] = 0.0; return x`.  It clamps the array IN
PLACE and returns it, so the caller's array is overwritten.  The model
returns the pair (contents of the argument array after the call, return
value); the two components are the same array in the source. -/
def relu (x : List ℚ) : List ℚ × List ℚ :=
  let r := x.map (fun t => if t < 0 then 0 else t)
  (r, r)

/-- Numpy addition of a (1, n)-shaped row `u` and an (m,)-shaped vector
`v`: elementwise when `n = m`, broadcast when one length is 1, and a
`ValueError` (here `none`) otherwise. -/
def addBroadcast (u v : List ℚ) : Option (List ℚ) :=
  if u.length = v.length then some (List.zipWith (· + ·) u v)
  else if v.length = 1 then some (u.map (· + v.headI))
  else if u.length = 1 then some (v.map (u.headI + ·))
  else none

/-- Numpy `u.dot(v)` for a (1, n) row and an (m, 1) column: the inner
product when `n = m`, a `ValueError` (here `none`) otherwise. -/
def dotL (u v : List ℚ) : Option ℚ :=
  if u.length = v.length then some ((List.zipWith (· * ·) u v).foldr (· + ·) 0)
  else none

/-- Source `compute_activations(x, weights, activations)`:
`assert activations in ['relu', 'linear']`, then
`hidden = W1.dot(x) + b1`; under `'relu'`, `hidden = relu(hidden)` and
`final = relu(hidden.dot(W2) + b2)`; under `'linear'`,
`final = hidden.dot(W2) + b2`; returns `(hidden, final)`.  Scalar–array
`dot` is elementwise scaling; the final `+ b2` broadcasts the (1,1) dot
result over `b2`. -/
def compute_activations (x : ℚ) (weights : Weights) (activations : String) :
    Except EvalError (List ℚ × List ℚ) :=
  if activations = "relu" ∨ activations = "linear" then
    match addBroadcast (weights.W1.map (· * x)) weights.b1 with
    | none => .error .shapeError
    | some hidden0 =>
      if activations = "relu" then
        let hidden := (relu hidden0).2
        match dotL hidden weights.W2 with
        | none => .error .shapeError
        | some d => .ok (hidden, (relu (weights.b2.map (fun t => d + t))).2)
      else
        match dotL hidden0 weights.W2 with
        | none => .error .shapeError
        | some d => .ok (hidden0, weights.b2.map (fun t => d + t))
  else .error .assertError

/-- The initial weight bundle printed by the notebook:
`W1 = [-0.1699, -1.1390]`, `b1 = [0, 0]`, `W2 = [1.2554, -0.4568]`,
`b2 = [0]`. -/
def refWeights : Weights :=
  ⟨[-1699/10000, -1139/1000], [0, 0], [12554/10000, -4568/10000], [0]⟩

/-- Packs two reals into the Euclidean plane, for stating the
norm/cosine form of the linear-policy output. -/
def vecE (a b : ℝ) : EuclideanSpace ℝ (Fin 2) := ![a, b]

/-- Global state of numpy's pseudo-random generator.  The simulation
cell interacts with it only through `np.random.seed` (which overwrites
it) and `np.random.uniform` (which reads and advances it). -/
structure NpRandom where
  key : ℕ
deriving DecidableEq, Repr

/-- One step of the generator.  The notebook's generator is numpy's
Mersenne twister, an external library; it is modelled by a linear
congruential step — every claim settled here depends only on the stream
being a deterministic function of the seed, never on its values. -/
def lcgNext (k : ℕ) : ℕ := (1103515245 * k + 12345) % 2147483648

/-- `np.random.seed(s)`: overwrite the global generator state. -/
def npSeed (s : ℕ) : NpRandom := ⟨s % 2147483648⟩

/-- `np.random.uniform(size=n)` on the global state: `n` draws in
`[0, 1)` and the advanced state. -/
def npUniformList : ℕ → NpRandom → List ℚ × NpRandom
  | 0, g => ([], g)
  | n + 1, g =>
      let k := lcgNext g.key
      let rest := npUniformList n ⟨k⟩
      ((k : ℚ) / 2147483648 :: rest.1, rest.2)

/-- Errors of the simulation cell: numpy's `ValueError` on a negative
dimension in `np.ones((n, 1))` and sklearn's `ValueError` when the
80/20 split would leave the training or evaluation side empty. -/
inductive SimError where
  | valueError : SimError
deriving DecidableEq, Repr

/-- The deterministic shuffle sklearn derives from `random_state`; it is
an external library, modelled as a seed-determined rotation of the index
range — the claims settled here depend only on it being a deterministic
function of the seed and the length. -/
def shuffleIdx (seed n : ℕ) : List ℕ :=
  let k := lcgNext seed % n
  (List.range n).drop k ++ (List.range n).take k

/-- The simulation cell, generalised over its `n_samples` variable and
its literal seed 23: `x = np.ones((n, 1))`; `np.random.seed(seed)`;
`y = np.random.uniform(size=n)`; `x[idx] *= y[idx]` (so each sample is
the pair `(y i, y i)`); `train_test_split(x, y, test_size=0.2,
random_state=seed)`.  Takes the global generator state at cell entry and
returns `((train pairs, test pairs), state at cell exit)`.
`np.ones` raises on a negative count; `train_test_split` computes
`n_test = ceil(n / 5)`, `n_train = n - n_test` and raises if either side
is empty. -/
def simulate_data (seed : ℕ) (n : ℤ) (g : NpRandom) :
    Except SimError ((List (ℚ × ℚ) × List (ℚ × ℚ)) × NpRandom) :=
  if n < 0 then .error .valueError
  else
    let m := n.toNat
    let draw := npUniformList m (npSeed seed)
    let samples := draw.1.map (fun v => (v, v))
    let nTest := (m + 4) / 5
    let nTrain := m - nTest
    if nTest = 0 ∨ nTrain = 0 then .error .valueError
    else
      let idx := shuffleIdx seed m
      let test := (idx.take nTest).filterMap (fun i => samples.get? i)
      let train := (idx.drop nTest).filterMap (fun i => samples.get? i)
      .ok ((train, test), draw.2)

/-- The source clamp `if t < 0 then 0 else t` is `max t 0`. -/
theorem relu_entry_eq_max (t : ℚ) : (if t < 0 then 0 else t) = max t 0 := by
  by_cases h : t < 0
  · simp [h, max_eq_right h.le]
  · simp [h, max_eq_left (not_lt.mp h)]

/-- The two policy strings are distinct, so the policy test inside
`compute_activations` selects a branch. -/
theorem linear_ne_relu : ("linear" : String) ≠ "relu" := by decide

/-- A map of the source clamp leaves a list unchanged exactly when no
entry is negative. -/
theorem map_clamp_eq_self (v : List ℚ) :
    v.map (fun t => if t < 0 then 0 else t) = v ↔ ∀ t ∈ v, ¬ t < 0 := by
  induction v with
  | nil => simp
  | cons h t ih =>
      simp only [List.map_cons, List.cons.injEq, List.mem_cons, forall_eq_or_imp, ih]
      constructor
      · rintro ⟨h1, h2⟩
        refine ⟨fun hlt => ?_, h2⟩
        rw [if_pos hlt] at h1
        exact absurd h1.symm (ne_of_lt hlt)
      · rintro ⟨h1, h2⟩
        exact ⟨if_neg h1, h2⟩

/-- C1 (counterexample): the claim quantifies over every weight bundle
with strictly negative W1, but a bundle with positive first-layer bias
defeats the saturation: W1 = [-1, -1], b1 = [2, 2], W2 = [1, 1],
b2 = [0], x = 1 gives hidden = [1, 1] and final = [2], not zeros. -/
theorem c1_bias_defeats_saturation :
    compute_activations 1 ⟨[-1, -1], [2, 2], [1, 1], [0]⟩ "relu"
      = .ok ([1, 1], [2]) ∧ (1 : ℚ) ≠ 0 ∧ (2 : ℚ) ≠ 0 := by
  refine ⟨by norm_num [compute_activations, addBroadcast, dotL, relu], by norm_num, by norm_num⟩

/-- C1 (amended): with the zero biases of the reference configuration,
a strictly negative W1 and a strictly positive input saturate the
rectified-linear network: hidden = [0, 0] and final = [0]. -/
theorem c1_saturation (a b c d x : ℚ) (ha : a < 0) (hb : b < 0) (hx : 0 < x) :
    compute_activations x ⟨[a, b], [0, 0], [c, d], [0]⟩ "relu" = .ok ([0, 0], [0]) := by
  have h1 : a * x < 0 := mul_neg_of_neg_of_pos ha hx
  have h2 : b * x < 0 := mul_neg_of_neg_of_pos hb hx
  simp [compute_activations, addBroadcast, relu, dotL, h1, h2]

/-- C1 (witness): the saturation theorem applied at
W1 = [-1, -1], W2 = [1, 1], x = 1. -/
theorem c1_saturation_witness :
    compute_activations 1 ⟨[-1, -1], [0, 0], [1, 1], [0]⟩ "relu" = .ok ([0, 0], [0]) :=
  c1_saturation (-1) (-1) 1 1 1 (by norm_num) (by norm_num) (by norm_num)

/-- C2: on a well-shaped bundle the evaluator computes the elementwise
affine hidden layer, clamps it at zero exactly under the rectified-linear
policy, forms dot(hidden, W2) + b2 from the (post-clamping) hidden
vector, clamps that exactly under the rectified-linear policy, and
returns the post-clamping hidden vector alongside the final output. -/
theorem c2_forward_pass (x a b p q c d e : ℚ) :
    compute_activations x ⟨[a, b], [p, q], [c, d], [e]⟩ "linear"
      = .ok ([a * x + p, b * x + q], [(a * x + p) * c + (b * x + q) * d + e])
    ∧ compute_activations x ⟨[a, b], [p, q], [c, d], [e]⟩ "relu"
      = .ok ([max (a * x + p) 0, max (b * x + q) 0],
             [max (max (a * x + p) 0 * c + max (b * x + q) 0 * d + e) 0]) := by
  constructor
  · simp only [compute_activations, addBroadcast, dotL, relu, linear_ne_relu]
    norm_num
  · simp only [compute_activations, addBroadcast, dotL, relu, relu_entry_eq_max]
    norm_num

/-- C4: at the notebook's initial weights and x = 0.5 the linear policy
yields hidden = [-0.08495, -0.5695] and final = [0.15350137], within
10⁻⁴ of the spec's rounded reference values, and the rectified-linear
policy yields hidden = [0, 0] and final = [0]. -/
theorem c4_reference_values :
    compute_activations (1/2) refWeights "linear"
      = .ok ([-1699/20000, -1139/2000], [15350137/100000000])
    ∧ |(-1699/20000 : ℚ) - -849/10000| ≤ 1/10000
    ∧ |(-1139/2000 : ℚ) - -5695/10000| ≤ 1/10000
    ∧ |(15350137/100000000 : ℚ) - 1535/10000| ≤ 1/10000
    ∧ compute_activations (1/2) refWeights "relu" = .ok ([0, 0], [0]) := by
  refine ⟨?_, by norm_num [abs_le], by norm_num [abs_le], by norm_num [abs_le], ?_⟩
  · norm_num [compute_activations, addBroadcast, dotL, relu, refWeights, linear_ne_relu]
  · norm_num [compute_activations, addBroadcast, dotL, relu, refWeights]

/-- The real inner product of two packed plane vectors is the
coordinate dot product. -/
theorem inner_vecE (a b c d : ℝ) :
    (inner (vecE a b) (vecE c d) : ℝ) = a * c + b * d := by
  simp [vecE, PiLp.inner_apply, Fin.sum_univ_two, RCLike.inner_apply, conj_trivial]

/-- The scaled dot product equals the norm–norm–cosine form, for any
two plane vectors (zero vectors included, where the angle is π/2). -/
theorem dot_eq_cos_form (x a b c d : ℝ) :
    x * (a * c + b * d)
      = x * ‖vecE a b‖ * ‖vecE c d‖ *
        Real.cos (InnerProductGeometry.angle (vecE a b) (vecE c d)) := by
  have h := InnerProductGeometry.cos_angle_mul_norm_mul_norm (vecE a b) (vecE c d)
  rw [inner_vecE] at h
  rw [← h]
  ring

/-- C3 (counterexample): the claim quantifies over every weight bundle,
but a nonzero first-layer bias contributes dot(b1, W2) to the linear
output: W1 = [1, 1], b1 = [1, 1], W2 = [1, 1], b2 = [0], x = 1 gives
final = 4 while x·dot(W1, W2) + b2 = 2. -/
theorem c3_bias_breaks_identity :
    compute_activations 1 ⟨[1, 1], [1, 1], [1, 1], [0]⟩ "linear" = .ok ([2, 2], [4])
    ∧ (4 : ℚ) ≠ 1 * (1 * 1 + 1 * 1) + 0 := by
  constructor
  · norm_num [compute_activations, addBroadcast, dotL, relu, linear_ne_relu]
  · norm_num

/-- C3 (amended): with b1 = 0, the linear policy returns exactly
final = x·dot(W1, W2) + b2; with b2 = 0 as well, that output is
x·‖W1‖·‖W2‖·cos(angle(W1, W2)) — exact equalities, hence within any
floating-point tolerance. -/
theorem c3_linear_identity (x a b c d e : ℚ) :
    compute_activations x ⟨[a, b], [0, 0], [c, d], [e]⟩ "linear"
      = .ok ([a * x, b * x], [x * (a * c + b * d) + e])
    ∧ compute_activations x ⟨[a, b], [0, 0], [c, d], [0]⟩ "linear"
      = .ok ([a * x, b * x], [x * (a * c + b * d)])
    ∧ ((x : ℝ) * ((a : ℝ) * (c : ℝ) + (b : ℝ) * (d : ℝ))
        = (x : ℝ) * ‖vecE (a : ℝ) (b : ℝ)‖ * ‖vecE (c : ℝ) (d : ℝ)‖ *
          Real.cos (InnerProductGeometry.angle (vecE (a : ℝ) (b : ℝ)) (vecE (c : ℝ) (d : ℝ)))) := by
  refine ⟨?_, ?_, dot_eq_cos_form x a b c d⟩
  · simp only [compute_activations, addBroadcast, dotL, relu, linear_ne_relu]
    norm_num
    ring
  · simp only [compute_activations, addBroadcast, dotL, relu, linear_ne_relu]
    norm_num
    ring

/-- C5 (counterexample): the claim quantifies over every weight bundle
and either policy, but at x = 0 the rectified-linear policy clamps a
negative bias: b1 = [-1, -1] returns hidden = [0, 0] ≠ b1. -/
theorem c5_clamped_at_zero_input :
    compute_activations 0 ⟨[1, 1], [-1, -1], [1, 1], [0]⟩ "relu" = .ok ([0, 0], [0])
    ∧ ([0, 0] : List ℚ) ≠ [-1, -1] := by
  constructor
  · norm_num [compute_activations, addBroadcast, dotL, relu]
  · norm_num

/-- C5 (amended): at x = 0 the linear policy always returns
hidden = b1 and final = dot(b1, W2) + b2; the rectified-linear policy
returns the same provided b1 is componentwise nonnegative and
dot(b1, W2) + b2 is nonnegative (in particular whenever b1 = 0 and
b2 ≥ 0). -/
theorem c5_zero_input (a b p q c d e : ℚ) :
    compute_activations 0 ⟨[a, b], [p, q], [c, d], [e]⟩ "linear"
      = .ok ([p, q], [p * c + q * d + e])
    ∧ (0 ≤ p → 0 ≤ q → 0 ≤ p * c + q * d + e →
        compute_activations 0 ⟨[a, b], [p, q], [c, d], [e]⟩ "relu"
          = .ok ([p, q], [p * c + q * d + e])) := by
  constructor
  · simp only [compute_activations, addBroadcast, dotL, relu, linear_ne_relu]
    norm_num
  · intro hp hq hf
    simp only [compute_activations, addBroadcast, dotL, relu]
    norm_num [not_lt.mpr hp, not_lt.mpr hq]
    intro hlt
    exact absurd hlt (not_lt.mpr hf)

/-- C5 (witness): the zero-input theorem applied at
b1 = [1, 1], W2 = [1, 1], b2 = [0]. -/
theorem c5_zero_input_witness :
    compute_activations 0 ⟨[5, 7], [1, 1], [1, 1], [0]⟩ "linear"
      = .ok ([1, 1], [1 * 1 + 1 * 1 + 0])
    ∧ compute_activations 0 ⟨[5, 7], [1, 1], [1, 1], [0]⟩ "relu"
      = .ok ([1, 1], [1 * 1 + 1 * 1 + 0]) :=
  ⟨(c5_zero_input 5 7 1 1 1 1 0).1,
   (c5_zero_input 5 7 1 1 1 1 0).2 (by norm_num) (by norm_num) (by norm_num)⟩

/-- C6 (counterexample): not every mismatched bundle fails — numpy
broadcasts a length-1 bias, so the non-1-2-1 bundle W1 = [1, 1, 1],
b1 = [0], W2 = [1, 1, 1], b2 = [0] silently returns a result. -/
theorem c6_broadcast_no_error :
    compute_activations 1 ⟨[1, 1, 1], [0], [1, 1, 1], [0]⟩ "linear" = .ok ([1, 1, 1], [3])
    ∧ ([1, 1, 1] : List ℚ).length ≠ 2 := by
  constructor
  · norm_num [compute_activations, addBroadcast, dotL, relu, linear_ne_relu]
  · norm_num

/-- C6 (amended): a 3-component W1 against a 2-component b1 is not
broadcastable, so the evaluator fails with a shape error under either
policy; well-shaped 1-2-1 bundles never produce an error. -/
theorem c6_shape_mismatch (x u1 u2 u3 v1 v2 w1 w2 e : ℚ) :
    (compute_activations x ⟨[u1, u2, u3], [v1, v2], [w1, w2], [e]⟩ "linear"
        = .error .shapeError
      ∧ compute_activations x ⟨[u1, u2, u3], [v1, v2], [w1, w2], [e]⟩ "relu"
        = .error .shapeError)
    ∧ ((compute_activations x ⟨[u1, u2], [v1, v2], [w1, w2], [e]⟩ "linear").isOk = true
      ∧ (compute_activations x ⟨[u1, u2], [v1, v2], [w1, w2], [e]⟩ "relu").isOk = true) := by
  refine ⟨⟨?_, ?_⟩, ?_, ?_⟩ <;>
    simp [compute_activations, addBroadcast, dotL, relu, linear_ne_relu, Except.isOk,
      Except.toBool]

/-- C7 (counterexample): the sample count 1 is positive, yet the cell
fails — the 80% training side of `train_test_split` is empty. -/
theorem c7_split_fails_at_one :
    simulate_data 23 1 ⟨0⟩ = .error .valueError ∧ (0 : ℤ) < 1 := by
  constructor
  · rfl
  · norm_num

/-- C7 (amended): the simulation fails exactly when the sample count is
at most 1 (negative counts at `np.ones`, counts 0 and 1 at the split);
for every count ≥ 2 it returns the two subsets without error. -/
theorem c7_sample_count (seed : ℕ) (n : ℤ) (g : NpRandom) :
    (∃ r, simulate_data seed n g = .ok r) ↔ 2 ≤ n := by
  simp only [simulate_data]
  by_cases hn : n < 0
  · simp only [if_pos hn]
    constructor
    · rintro ⟨r, hr⟩
      exact Except.noConfusion hr
    · intro h2
      omega
  · simp only [if_neg hn]
    by_cases hsplit : (n.toNat + 4) / 5 = 0 ∨ n.toNat - (n.toNat + 4) / 5 = 0
    · simp only [if_pos hsplit]
      constructor
      · rintro ⟨r, hr⟩
        exact Except.noConfusion hr
      · intro h2
        omega
    · simp only [if_neg hsplit]
      constructor
      · intro _
        omega
      · intro _
        exact ⟨_, rfl⟩

/-- C8: the simulation's output — samples, both partitions, and even the
generator state it leaves behind — is independent of the global
generator state at entry, because the cell reseeds from its explicit
seed before drawing; hence two runs with the same seed and count return
identical sample sets and identical train/evaluation partitions. -/
theorem c8_deterministic_given_seed (seed : ℕ) (n : ℤ) (g1 g2 : NpRandom) :
    simulate_data seed n g1 = simulate_data seed n g2 := rfl

/-- C9 (counterexample): the `relu` helper is not mutation-free — called
on the array [-1], it leaves [0] in the caller's array. -/
theorem c9_relu_mutates_argument :
    (relu [-1]).1 = [0] ∧ ([0] : List ℚ) ≠ [-1] := by
  constructor
  · norm_num [relu]
  · norm_num

/-- C9 (amended): `relu` returns the very array it mutated (argument
after the call = return value), the argument survives unchanged exactly
when it has no negative entry, and the data simulation's result is a
function of its seed and count alone, independent of the pre-existing
global generator state. -/
theorem c9_purity :
    (∀ v : List ℚ, (relu v).1 = (relu v).2)
    ∧ (∀ v : List ℚ, (relu v).1 = v ↔ ∀ t ∈ v, ¬ t < 0)
    ∧ (∀ (seed : ℕ) (n : ℤ) (g1 g2 : NpRandom),
        simulate_data seed n g1 = simulate_data seed n g2) := by
  refine ⟨fun v => rfl, fun v => ?_, fun _ _ _ _ => rfl⟩
  exact map_clamp_eq_self v

/-- C10: the evaluator returns the assertion failure exactly for policy
strings other than "relu" and "linear"; for those two the assertion
never fires (any later failure is a shape error, not an assertion). -/
theorem c10_policy_assertion (x : ℚ) (w : Weights) (a : String) :
    compute_activations x w a = .error .assertError ↔ ¬(a = "relu" ∨ a = "linear") := by
  by_cases h : a = "relu" ∨ a = "linear"
  · simp only [h, not_true_eq_false, iff_false]
    simp only [compute_activations, if_pos h]
    split
    · simp
    · split
      · split
        · simp
        · simp
      · split
        · simp
        · simp
  · simp [compute_activations, h]
